import Mathlib

/-!
Verification development for the wolc core: the device registry store
(src/src-tauri/src/devicemanager.rs) and the Wake-on-LAN magic-packet
dispatcher (src/src-tauri/src/wol.rs).

The registry is embedded with an explicit model of the backing JSON
document (the serde serialization of `Vec<Device>` with the field
attributes of the `Device` struct) and of the three observable file
states the Rust code distinguishes when opening it: the file is absent
(`ErrorKind::NotFound`), opening fails for another reason, or the file
is present with some JSON content.

The dispatcher's MAC parsing and payload construction live in the
external `wakey` crate, which is not part of this repository's sources;
those two functions are modelled from the spec, as marked on their doc
comments.  The transmission is modelled from the call boundary visible
in `wol.rs`: `send_magic()` is called with no destination argument, so
the datagram destination is a fixed constant of the crate; the
socket-address string `wol.rs` resolves from `target_addr` (host or
broadcast, with the fixed `:9` suffix) is embedded as
`resolve_target_socket_addr` but, exactly as in the source, feeds only
log and error text, never the transmission.
-/

namespace Wolc

/-- JSON values as produced and consumed by `serde_json` for the device
registry document.  Only the shapes that the registry schema can emit or
inspect are modelled: strings, arrays and objects (an object is its
ordered field list). -/
inductive Json where
  | str (s : String)
  | arr (xs : List Json)
  | obj (fields : List (String × Json))

/-- First binding of a key in a JSON object's field list. -/
def lookupField : List (String × Json) → String → Option Json
  | [], _ => none
  | (k2, v) :: rest, k => if k2 = k then some v else lookupField rest k

/-- Key list of a JSON object (empty for non-objects). -/
def objKeys : Json → List String
  | Json.obj fields => fields.map (fun f => f.1)
  | _ => []

/-- The `Device` struct of src/src-tauri/src/devicemanager.rs: `id`,
`name` and `mac` are strings; `target_addr` is an `Option<String>`
serialized under the key `targetAddr` and skipped when `None`.  The
struct has no further fields. -/
structure Device where
  id : String
  name : String
  mac : String
  target_addr : Option String
deriving DecidableEq

/-- Serde serialization of one `Device`: fields in declaration order,
`target_addr` renamed to `targetAddr` and omitted when `None`
(`skip_serializing_if = "Option::is_none"`). -/
def serializeDevice (d : Device) : Json :=
  Json.obj ([("id", Json.str d.id), ("name", Json.str d.name), ("mac", Json.str d.mac)] ++
    (match d.target_addr with
     | none => []
     | some a => [("targetAddr", Json.str a)]))

/-- Serde serialization of a `Vec<Device>`: a JSON array of the
element serializations (this is what `write_devices_to_file` writes). -/
def serializeDevices (ds : List Device) : Json :=
  Json.arr (ds.map serializeDevice)

/-- String extraction from a JSON value. -/
def asStr : Json → Option String
  | Json.str s => some s
  | _ => none

/-- Serde deserialization of one `Device` from a JSON value: the three
string fields are required; `targetAddr` is optional and its absence
deserializes to `none`; unknown keys are ignored (serde default). -/
def deserializeDevice (j : Json) : Option Device :=
  match j with
  | Json.obj fields =>
    match lookupField fields "id" >>= asStr, lookupField fields "name" >>= asStr,
          lookupField fields "mac" >>= asStr with
    | some i, some n, some m =>
      match lookupField fields "targetAddr" with
      | none => some (Device.mk i n m none)
      | some j2 =>
        match asStr j2 with
        | some a => some (Device.mk i n m (some a))
        | none => none
    | _, _, _ => none
  | _ => none

/-- Element-wise decoding of a list, failing as soon as one element
fails (the semantics of serde deserializing a `Vec`). -/
def traverseOption (f : α → Option β) : List α → Option (List β)
  | [] => some []
  | x :: xs =>
    match f x, traverseOption f xs with
    | some y, some ys => some (y :: ys)
    | _, _ => none

/-- Serde deserialization of a `Vec<Device>`: the document must be a
JSON array and every element must deserialize. -/
def deserializeDevices (j : Json) : Option (List Device) :=
  match j with
  | Json.arr xs => traverseOption deserializeDevice xs
  | _ => none

/-- Observable state of the backing document, matching the three arms of
the `match File::open(path)` in `read_devices_from_file`: the file does
not exist (`ErrorKind::NotFound`), it exists with some content, or
opening it fails for another reason. -/
inductive FileState where
  | absent
  | present (content : Json)
  | unreadable

/-- Errors of the registry store, each carrying the context the Rust
code attaches with `anyhow::Context` (the failing path, or the id that
was not found). -/
inductive DmError where
  | deserialization (path : String)
  | ioOpen (path : String)
  | notFound (id : String)
deriving DecidableEq

/-- `read_devices_from_file` of devicemanager.rs: an existing file is
deserialized (failure is a deserialization error naming the path); a
missing file yields the empty list without error; any other open
failure is an I/O error naming the path. -/
def read_devices_from_file (path : String) (fs : FileState) : Except DmError (List Device) :=
  match fs with
  | FileState.present j =>
    match deserializeDevices j with
    | some devices => Except.ok devices
    | none => Except.error (DmError.deserialization path)
  | FileState.absent => Except.ok []
  | FileState.unreadable => Except.error (DmError.ioOpen path)

/-- `write_devices_to_file` of devicemanager.rs: the whole list is
re-serialized and the document replaced with it. -/
def write_devices_to_file (devices : List Device) : FileState :=
  FileState.present (serializeDevices devices)

/-- `load_devices_internal` of devicemanager.rs. -/
def load_devices_internal (path : String) (fs : FileState) : Except DmError (List Device) :=
  read_devices_from_file path fs

/-- `add_device_internal` of devicemanager.rs: load the list, overwrite
the draft's id with a freshly generated one (`Uuid::new_v4`, passed here
as the `freshId` argument), push the record, persist, and return the
full list.  The second component is the document state after the call;
on error it is the unchanged input state. -/
def add_device_internal (path : String) (fs : FileState) (freshId : String)
    (new_device_data : Device) : (Except DmError (List Device)) × FileState :=
  match read_devices_from_file path fs with
  | Except.error e => (Except.error e, fs)
  | Except.ok devices =>
    let added := { new_device_data with id := freshId }
    let devices2 := devices ++ [added]
    (Except.ok devices2, write_devices_to_file devices2)

/-- `update_device_internal` of devicemanager.rs: load the list, find
the position of the first entry whose id equals `updated_device.id`,
replace that entry with `updated_device`, persist, and return the list;
if no entry matches, fail with NotFound and leave the document as it
was. -/
def update_device_internal (path : String) (fs : FileState)
    (updated_device : Device) : (Except DmError (List Device)) × FileState :=
  match read_devices_from_file path fs with
  | Except.error e => (Except.error e, fs)
  | Except.ok devices =>
    match devices.findIdx? (fun d => d.id == updated_device.id) with
    | some index =>
      let devices2 := devices.set index updated_device
      (Except.ok devices2, write_devices_to_file devices2)
    | none => (Except.error (DmError.notFound updated_device.id), fs)

/-- `delete_device_internal` of devicemanager.rs: load the list, retain
only the entries whose id differs from `device_id`, and if the length
did not change fail with NotFound leaving the document as it was;
otherwise persist the filtered list and return it. -/
def delete_device_internal (path : String) (fs : FileState)
    (device_id : String) : (Except DmError (List Device)) × FileState :=
  match read_devices_from_file path fs with
  | Except.error e => (Except.error e, fs)
  | Except.ok devices =>
    let devices2 := devices.filter (fun d => !(d.id == device_id))
    if devices2.length = devices.length then
      (Except.error (DmError.notFound device_id), fs)
    else
      (Except.ok devices2, write_devices_to_file devices2)

/-- Splitting of a character sequence at every occurrence of the
delimiter (the semantics of `str::split` on the sequence: `n`
delimiters give `n + 1` groups, so an empty input gives one empty
group). -/
def splitChars (sep : Char) : List Char → List (List Char)
  | [] => [[]]
  | c :: rest =>
    if c = sep then [] :: splitChars sep rest
    else
      match splitChars sep rest with
      | g :: gs => (c :: g) :: gs
      | [] => [[c]]

/-- Value of one hexadecimal digit, case-insensitive. -/
def hexVal (c : Char) : Option Nat :=
  if ('0' ≤ c ∧ c ≤ '9') then some (c.toNat - '0'.toNat)
  else if ('a' ≤ c ∧ c ≤ 'f') then some (c.toNat - 'a'.toNat + 10)
  else if ('A' ≤ c ∧ c ≤ 'F') then some (c.toNat - 'A'.toNat + 10)
  else none

/-- Decoding of one MAC group: exactly two hexadecimal digits, yielding
one byte value. -/
def parseHexPair : List Char → Option Nat
  | [c1, c2] =>
    match hexVal c1, hexVal c2 with
    | some h1, some h2 => some (16 * h1 + h2)
    | _, _ => none
  | _ => none

/-- Modelled from the spec: the MAC parsing of
`wakey::WolPacket::from_string` (the wakey crate is not part of this
repository's sources).  Per §4.2, the input must decompose into exactly
six groups of two hexadecimal digits separated by the given delimiter;
any other shape fails. -/
def mac_to_bytes (s : String) (sep : Char) : Option (List Nat) :=
  let groups := splitChars sep s.toList
  if groups.length = 6 then traverseOption parseHexPair groups else none

/-- Modelled from the spec: the payload construction of the wakey crate
(not part of this repository's sources).  Per §4.2, the wire payload is
six bytes of value 0xFF followed by the six-byte MAC repeated 16 times
consecutively. -/
def create_packet (mac : List Nat) : List Nat :=
  List.replicate 6 0xFF ++ (List.replicate 16 mac).flatten

/-- Errors of the dispatcher, carrying the diagnostic message the Rust
code attaches with `anyhow::Context`. -/
inductive WolError where
  | invalidMacFormat (msg : String)
deriving DecidableEq

/-- The one outward-visible network effect of a successful send: the
datagram payload and the destination the transport actually uses. -/
structure SendEvent where
  payload : List Nat
  dest : String
deriving DecidableEq

/-- Single-quote character (code point 39), which the Rust format
string of wol.rs places around the offending input in the invalid-MAC
context message. -/
def squote : String := String.singleton (Char.ofNat 39)

/-- The socket-address string that wol.rs resolves from `target_addr`
(the given host, or the limited broadcast address, with the fixed port
suffix `:9`).  In the program this string is used only in the log line
and in the error-context text of a failed transmission — it is never
passed to the transmission call. -/
def resolve_target_socket_addr (target_addr : Option String) : String :=
  (target_addr.getD "255.255.255.255") ++ ":9"

/-- Destination that `wakey::WolPacket::send_magic()` actually uses.
The call site in wol.rs passes `send_magic` no destination argument at
all — only the packet (`self`) reaches it — so its destination is a
fixed constant of the crate, independent of everything wol.rs computed;
wakey documents it as the limited broadcast address on port 9. -/
def wakey_default_destination : String := "255.255.255.255:9"

/-- Transmission as performed by `wakey::WolPacket::send_magic()` at
the call boundary visible in wol.rs: one datagram carrying the packet,
sent to the crate's fixed default destination.  No caller-supplied
destination exists in its signature. -/
def send_magic (payload : List Nat) : SendEvent :=
  SendEvent.mk payload wakey_default_destination

set_option linter.unusedVariables false in
/-- `send_wol_packet_internal` of src/src-tauri/src/wol.rs: parse the
MAC with delimiter `:` (failure adds the context message naming the
offending input in single quotes); then transmit by calling
`send_magic()` on the parsed packet.  The function takes no port
argument, and the `target_addr` argument does not reach the
transmission: wol.rs resolves it (see `resolve_target_socket_addr`)
but uses the resolved string only in its `println!` log line and in
the error-context text of a failed send, neither of which is part of
the outward behavior modelled here. -/
def send_wol_packet_internal (mac_address : String) (target_addr : Option String) :
    Except WolError SendEvent :=
  match mac_to_bytes mac_address ':' with
  | none =>
    Except.error (WolError.invalidMacFormat
      ("Invalid MAC address format provided: " ++ squote ++ mac_address ++ squote))
  | some bytes =>
    Except.ok (send_magic (create_packet bytes))

/-- Destination of a send result, when it succeeded. -/
def sentDest (r : Except WolError SendEvent) : Option String :=
  match r with
  | Except.ok ev => some ev.dest
  | Except.error _ => none

/-- Declarative well-formedness of a MAC string: splitting on `:` gives
exactly six groups, each of exactly two hexadecimal digits. -/
def validMacShape (s : String) : Bool :=
  let groups := splitChars ':' s.toList
  groups.length == 6 &&
    groups.all (fun g => g.length == 2 && g.all (fun c => (hexVal c).isSome))

/-! ### Helper lemmas -/

/-- Deserializing the serialization of one device recovers it exactly,
whether or not `target_addr` is present. -/
theorem deserialize_serialize (d : Device) :
    deserializeDevice (serializeDevice d) = some d := by
  cases d with
  | mk i n m t => cases t <;> rfl

theorem traverse_map_serialize (ds : List Device) :
    traverseOption deserializeDevice (ds.map serializeDevice) = some ds := by
  induction ds with
  | nil => rfl
  | cons d ds ih => simp [traverseOption, deserialize_serialize, ih]

theorem deserializeDevices_serializeDevices (ds : List Device) :
    deserializeDevices (serializeDevices ds) = some ds := by
  simp [deserializeDevices, serializeDevices, traverse_map_serialize]

theorem read_after_write (path : String) (ds : List Device) :
    read_devices_from_file path (write_devices_to_file ds) = Except.ok ds := by
  simp [read_devices_from_file, write_devices_to_file, deserializeDevices_serializeDevices]

/-- Replacing an element by one with the same id leaves the id column of
the list unchanged. -/
theorem map_id_set (devices : List Device) (i : Nat) (d : Device)
    (hi : i < devices.length) (hid : (devices.get ⟨i, hi⟩).id = d.id) :
    (devices.set i d).map Device.id = devices.map Device.id := by
  induction devices generalizing i with
  | nil => simp at hi
  | cons x xs ih =>
    cases i with
    | zero =>
      simp only [List.get] at hid
      simp [List.set, hid.symm]
    | succ k =>
      simp only [List.get] at hid
      simp only [List.length_cons, Nat.succ_lt_succ_iff] at hi
      simp [List.set, ih k hi hid]

/-- Unfolding of `add_device_internal` once the load step is known. -/
theorem add_device_internal_eq (path : String) (fs : FileState) (freshId : String)
    (new_device_data : Device) (devices : List Device)
    (hread : read_devices_from_file path fs = Except.ok devices) :
    add_device_internal path fs freshId new_device_data =
      (Except.ok (devices ++ [{ new_device_data with id := freshId }]),
       write_devices_to_file (devices ++ [{ new_device_data with id := freshId }])) := by
  unfold add_device_internal
  rw [hread]

/-- Unfolding of `update_device_internal` once the load step is known. -/
theorem update_device_internal_eq (path : String) (fs : FileState)
    (updated_device : Device) (devices : List Device)
    (hread : read_devices_from_file path fs = Except.ok devices) :
    update_device_internal path fs updated_device =
      (match devices.findIdx? (fun d => d.id == updated_device.id) with
       | some index =>
         (Except.ok (devices.set index updated_device),
          write_devices_to_file (devices.set index updated_device))
       | none => (Except.error (DmError.notFound updated_device.id), fs)) := by
  unfold update_device_internal
  rw [hread]

/-- Unfolding of `delete_device_internal` once the load step is known. -/
theorem delete_device_internal_eq (path : String) (fs : FileState)
    (device_id : String) (devices : List Device)
    (hread : read_devices_from_file path fs = Except.ok devices) :
    delete_device_internal path fs device_id =
      (if (devices.filter (fun d => !(d.id == device_id))).length = devices.length then
        (Except.error (DmError.notFound device_id), fs)
       else
        (Except.ok (devices.filter (fun d => !(d.id == device_id))),
         write_devices_to_file (devices.filter (fun d => !(d.id == device_id))))) := by
  unfold delete_device_internal
  rw [hread]

/-- Elimination for a successful `update_device_internal`: it found the
first index whose id matches, replaced that entry, and persisted. -/
theorem update_ok_elim (path : String) (fs : FileState) (d : Device)
    (devices res : List Device) (fs2 : FileState)
    (hread : read_devices_from_file path fs = Except.ok devices)
    (h : update_device_internal path fs d = (Except.ok res, fs2)) :
    ∃ i, ∃ hi : i < devices.length, (devices.get ⟨i, hi⟩).id = d.id ∧
      res = devices.set i d ∧ fs2 = write_devices_to_file res := by
  rw [update_device_internal_eq path fs d devices hread] at h
  cases hidx : devices.findIdx? (fun x => x.id == d.id) with
  | none => rw [hidx] at h; simp at h
  | some i =>
    rw [hidx] at h
    simp only [Prod.mk.injEq, Except.ok.injEq] at h
    rcases List.findIdx?_eq_some_iff_getElem.mp hidx with ⟨hlt, hp, _⟩
    refine ⟨i, hlt, ?_, h.1.symm, by rw [h.2.symm, h.1]⟩
    simpa [List.get_eq_getElem, beq_iff_eq] using hp

/-- Elimination for a successful `delete_device_internal`: the result is
the filtered list, it is strictly shorter, and it was persisted. -/
theorem delete_ok_elim (path : String) (fs : FileState) (device_id : String)
    (devices res : List Device) (fs2 : FileState)
    (hread : read_devices_from_file path fs = Except.ok devices)
    (h : delete_device_internal path fs device_id = (Except.ok res, fs2)) :
    res = devices.filter (fun x => !(x.id == device_id)) ∧
      res.length ≠ devices.length ∧ fs2 = write_devices_to_file res := by
  rw [delete_device_internal_eq path fs device_id devices hread] at h
  by_cases hlen :
      (devices.filter (fun x => !(x.id == device_id))).length = devices.length
  · rw [if_pos hlen] at h; simp at h
  · rw [if_neg hlen] at h
    simp only [Prod.mk.injEq, Except.ok.injEq] at h
    exact ⟨h.1.symm, by rw [h.1] at hlen; exact hlen, by rw [h.2.symm, h.1]⟩

theorem traverseOption_isSome (f : α → Option β) (xs : List α) :
    (traverseOption f xs).isSome = xs.all (fun x => (f x).isSome) := by
  induction xs with
  | nil => rfl
  | cons x xs ih =>
    cases hf : f x <;> cases ht : traverseOption f xs <;>
      simp_all [traverseOption]

theorem traverseOption_length (f : α → Option β) (xs : List α) (ys : List β)
    (h : traverseOption f xs = some ys) : ys.length = xs.length := by
  induction xs generalizing ys with
  | nil =>
    simp only [traverseOption, Option.some.injEq] at h
    simp [h.symm]
  | cons x xs ih =>
    cases hf : f x with
    | none => simp [traverseOption, hf] at h
    | some y =>
      cases ht : traverseOption f xs with
      | none => simp [traverseOption, hf, ht] at h
      | some ys2 =>
        simp only [traverseOption, hf, ht, Option.some.injEq] at h
        rw [h.symm]
        simp [ih ys2 ht]

/-- One MAC group decodes exactly when it is two hexadecimal digits. -/
theorem parseHexPair_isSome (g : List Char) :
    (parseHexPair g).isSome =
      (g.length == 2 && g.all (fun c => (hexVal c).isSome)) := by
  match g with
  | [] => rfl
  | [c1] => simp [parseHexPair]
  | [c1, c2] => cases h1 : hexVal c1 <;> cases h2 : hexVal c2 <;> simp [parseHexPair, h1, h2]
  | c1 :: c2 :: c3 :: rest => simp [parseHexPair]

/-- The modelled wakey parser accepts a MAC string exactly when it has
the declarative six-groups-of-two-hex-digits shape. -/
theorem mac_to_bytes_isSome (s : String) :
    (mac_to_bytes s ':').isSome = validMacShape s := by
  unfold mac_to_bytes validMacShape
  generalize splitChars ':' s.toList = groups
  by_cases h : groups.length = 6
  · simp [h, traverseOption_isSome, parseHexPair_isSome]
  · simp [h, beq_iff_eq]

/-! ### Claim theorems -/

/-- Claim C8: `load` returns the empty list, without error, when the
backing document does not exist; when the document exists but its
content does not parse as the expected schema, it fails with a
deserialization error carrying the path; any other failure to open the
file is surfaced as an I/O error carrying the path. -/
theorem C8_load_semantics :
    (∀ path, load_devices_internal path FileState.absent = Except.ok []) ∧
    (∀ path j, deserializeDevices j = none →
        load_devices_internal path (FileState.present j) =
          Except.error (DmError.deserialization path)) ∧
    (∀ path, load_devices_internal path FileState.unreadable =
        Except.error (DmError.ioOpen path)) := by
  refine ⟨fun path => rfl, fun path j h => ?_, fun path => rfl⟩
  simp [load_devices_internal, read_devices_from_file, h]

/-- Witness for C8 at a concrete path and a concrete non-conforming
document (a bare string instead of an array). -/
theorem C8_witness :
    load_devices_internal "devices.json" (FileState.present (Json.str "bad")) =
      Except.error (DmError.deserialization "devices.json") :=
  C8_load_semantics.2.1 "devices.json" (Json.str "bad") rfl

/-- Claim C9: serializing any device list and deserializing it back
yields an equal list; an absent `target_addr` is omitted from the
serialized object and deserializes back to absent; an object lacking the
`targetAddr` key (an older document) still deserializes, with the field
absent; and reading back a just-persisted document succeeds with the
same list. -/
theorem C9_roundtrip :
    (∀ ds, deserializeDevices (serializeDevices ds) = some ds) ∧
    (∀ d, d.target_addr = none → objKeys (serializeDevice d) = ["id", "name", "mac"]) ∧
    (∀ i n m,
        deserializeDevice
            (Json.obj [("id", Json.str i), ("name", Json.str n), ("mac", Json.str m)]) =
          some (Device.mk i n m none)) ∧
    (∀ path ds, read_devices_from_file path (write_devices_to_file ds) = Except.ok ds) := by
  refine ⟨deserializeDevices_serializeDevices, fun d h => ?_, fun i n m => rfl,
    read_after_write⟩
  cases d with
  | mk i n m t =>
    simp only at h
    rw [h]
    rfl

/-- Witness for C9 at a concrete list with one absent and one present
`target_addr`. -/
theorem C9_witness :
    deserializeDevices (serializeDevices
        [Device.mk "a" "n1" "AA:BB:CC:DD:EE:FF" none,
         Device.mk "b" "n2" "11:22:33:44:55:66" (some "192.168.0.7")]) =
      some [Device.mk "a" "n1" "AA:BB:CC:DD:EE:FF" none,
            Device.mk "b" "n2" "11:22:33:44:55:66" (some "192.168.0.7")] ∧
    objKeys (serializeDevice (Device.mk "a" "n1" "AA:BB:CC:DD:EE:FF" none)) =
      ["id", "name", "mac"] :=
  ⟨C9_roundtrip.1 _, C9_roundtrip.2.1 (Device.mk "a" "n1" "AA:BB:CC:DD:EE:FF" none) rfl⟩

/-- Claim C1 evaluated at the failing input (the code bug): for the
call with MAC AA:BB:CC:DD:EE:FF and target host 192.168.0.7, wol.rs
resolves the target socket address 192.168.0.7:9 — as the claim, the
spec and the code's own transmission comment intend — but then calls
`send_magic()` with no destination, so the datagram goes to the crate's
fixed default destination, not to 192.168.0.7:9; indeed the whole send
result is independent of the `target_addr` argument. -/
theorem C1_target_addr_ignored :
    (∀ mac t u, send_wol_packet_internal mac t = send_wol_packet_internal mac u) ∧
    resolve_target_socket_addr (some "192.168.0.7") = "192.168.0.7:9" ∧
    sentDest (send_wol_packet_internal "AA:BB:CC:DD:EE:FF" (some "192.168.0.7")) =
      some wakey_default_destination ∧
    wakey_default_destination ≠ "192.168.0.7:9" ∧
    send_wol_packet_internal "AA:BB:CC:DD:EE:FF" (some "192.168.0.7") =
      Except.ok (send_magic (create_packet [0xAA, 0xBB, 0xCC, 0xDD, 0xEE, 0xFF])) :=
  ⟨fun mac t u => rfl, rfl, by decide, by decide, rfl⟩

/-- Counterexample to claim C2 as stated: the `Device` struct of
devicemanager.rs has no `port` field at all, so even a fully populated
record serializes to an object whose keys are exactly id, name, mac and
targetAddr — no `port` key exists to be present or omitted. -/
theorem C2_counterexample :
    objKeys (serializeDevice
        (Device.mk "3f" "desk" "AA:BB:CC:DD:EE:FF" (some "192.168.0.7"))) =
      ["id", "name", "mac", "targetAddr"] ∧
    "port" ∉ objKeys (serializeDevice
        (Device.mk "3f" "desk" "AA:BB:CC:DD:EE:FF" (some "192.168.0.7"))) :=
  ⟨rfl, by decide⟩

/-- Claim C2 (amended): a Device record carries an optional `targetAddr`
field and no `port` field, and the send operation accepts an optional
`targetAddr` and no port argument; the serialized object's keys are id,
name, mac, plus targetAddr exactly when it is present, and never
include a `port` key. -/
theorem C2_amended_no_port :
    (∀ d, objKeys (serializeDevice d) =
        ["id", "name", "mac"] ++
          (match d.target_addr with | none => [] | some _ => ["targetAddr"])) ∧
    (∀ d, "port" ∉ objKeys (serializeDevice d)) ∧
    (∀ d, d.target_addr = none → objKeys (serializeDevice d) = ["id", "name", "mac"]) := by
  have hkeys : ∀ d : Device, objKeys (serializeDevice d) =
      ["id", "name", "mac"] ++
        (match d.target_addr with | none => [] | some _ => ["targetAddr"]) := by
    intro d
    cases d with
    | mk i n m t => cases t <;> rfl
  refine ⟨hkeys, fun d => ?_, fun d h => ?_⟩
  · rw [hkeys d]
    cases d.target_addr with
    | none => decide
    | some a => simp
  · rw [hkeys d, h]
    rfl

/-- Witness for C2 at a concrete device without `target_addr`: its
serialization omits the key entirely, and has no port key either. -/
theorem C2_witness :
    objKeys (serializeDevice (Device.mk "3f" "desk" "AA:BB:CC:DD:EE:FF" none)) =
      ["id", "name", "mac"] ∧
    "port" ∉ objKeys (serializeDevice (Device.mk "3f" "desk" "AA:BB:CC:DD:EE:FF" none)) :=
  ⟨C2_amended_no_port.2.2 (Device.mk "3f" "desk" "AA:BB:CC:DD:EE:FF" none) rfl,
   C2_amended_no_port.2.1 (Device.mk "3f" "desk" "AA:BB:CC:DD:EE:FF" none)⟩

/-- Claim C4: a MAC string is accepted exactly when it is six groups of
two hexadecimal digits separated by the fixed delimiter `:`; any other
shape makes the whole send fail with an invalid-MAC-format error whose
message names the offending input, producing no send event (so no
socket is ever involved for such inputs). -/
theorem C4_mac_validation :
    (∀ s t, validMacShape s = false →
        send_wol_packet_internal s t =
          Except.error (WolError.invalidMacFormat
            ("Invalid MAC address format provided: " ++ squote ++ s ++ squote))) ∧
    (∀ s t, validMacShape s = false → sentDest (send_wol_packet_internal s t) = none) ∧
    (∀ s t, validMacShape s = true →
        sentDest (send_wol_packet_internal s t) = some wakey_default_destination) := by
  have herr : ∀ s t, validMacShape s = false →
      send_wol_packet_internal s t =
        Except.error (WolError.invalidMacFormat
          ("Invalid MAC address format provided: " ++ squote ++ s ++ squote)) := by
    intro s t h
    have hb : mac_to_bytes s ':' = none := by
      have := mac_to_bytes_isSome s
      rw [h] at this
      exact Option.not_isSome_iff_eq_none.mp (by rw [this]; exact Bool.false_ne_true)
    unfold send_wol_packet_internal
    rw [hb]
  refine ⟨herr, fun s t h => by rw [herr s t h]; rfl, fun s t h => ?_⟩
  have hb : (mac_to_bytes s ':').isSome = true := by rw [mac_to_bytes_isSome s, h]
  rcases Option.isSome_iff_exists.mp hb with ⟨bytes, hbytes⟩
  unfold send_wol_packet_internal
  rw [hbytes]
  rfl

/-- Witness for C4 at the spec's two rejected examples (too few groups;
a non-hex digit) and one accepted example. -/
theorem C4_witness :
    send_wol_packet_internal "AA:BB" none =
      Except.error (WolError.invalidMacFormat
        ("Invalid MAC address format provided: " ++ squote ++ "AA:BB" ++ squote)) ∧
    send_wol_packet_internal "ZZ:BB:CC:DD:EE:FF" none =
      Except.error (WolError.invalidMacFormat
        ("Invalid MAC address format provided: " ++ squote ++ "ZZ:BB:CC:DD:EE:FF" ++ squote)) ∧
    sentDest (send_wol_packet_internal "AA:BB:CC:DD:EE:FF" none) =
      some wakey_default_destination :=
  ⟨C4_mac_validation.1 "AA:BB" none (by decide),
   C4_mac_validation.1 "ZZ:BB:CC:DD:EE:FF" none (by decide),
   C4_mac_validation.2.2 "AA:BB:CC:DD:EE:FF" none (by decide)⟩

/-- Claim C5: every parsed MAC has six bytes and yields the 102-byte
magic packet — six 0xFF bytes then the MAC sixteen times; and the
spec's example MAC parses to exactly its six byte values. -/
theorem C5_magic_packet_payload :
    (∀ s bytes, mac_to_bytes s ':' = some bytes →
        bytes.length = 6 ∧
        (create_packet bytes).length = 102 ∧
        (create_packet bytes).take 6 = List.replicate 6 0xFF ∧
        (create_packet bytes).drop 6 = (List.replicate 16 bytes).flatten) ∧
    mac_to_bytes "AA:BB:CC:DD:EE:FF" ':' =
      some [0xAA, 0xBB, 0xCC, 0xDD, 0xEE, 0xFF] := by
  refine ⟨fun s bytes h => ?_, by decide⟩
  have hlen : bytes.length = 6 := by
    unfold mac_to_bytes at h
    by_cases h6 : (splitChars ':' s.toList).length = 6
    · rw [if_pos h6] at h
      rw [traverseOption_length parseHexPair _ bytes h, h6]
    · rw [if_neg h6] at h
      exact absurd h (by simp)
  refine ⟨hlen, ?_, ?_, ?_⟩
  · simp [create_packet, List.length_flatten, List.map_replicate, hlen]
  · simp [create_packet]
  · simp [create_packet]

/-- Witness for C5 at the spec's example MAC. -/
theorem C5_witness :
    ([0xAA, 0xBB, 0xCC, 0xDD, 0xEE, 0xFF] : List Nat).length = 6 ∧
    (create_packet [0xAA, 0xBB, 0xCC, 0xDD, 0xEE, 0xFF]).length = 102 ∧
    (create_packet [0xAA, 0xBB, 0xCC, 0xDD, 0xEE, 0xFF]).take 6 =
      List.replicate 6 0xFF ∧
    (create_packet [0xAA, 0xBB, 0xCC, 0xDD, 0xEE, 0xFF]).drop 6 =
      (List.replicate 16 [0xAA, 0xBB, 0xCC, 0xDD, 0xEE, 0xFF]).flatten :=
  C5_magic_packet_payload.1 "AA:BB:CC:DD:EE:FF"
    [0xAA, 0xBB, 0xCC, 0xDD, 0xEE, 0xFF] (by decide)

/-- Claim C3: create discards the draft's id and appends the record
with the freshly generated id at the end of the full list; two drafts
differing only in their id give identical results; and, provided the
generated id differs from every existing id, id-distinctness of the
list is preserved by create, and it is also preserved by every
successful update and delete. -/
theorem C3_create_id_unique :
    (∀ path fs freshId draft devices,
        read_devices_from_file path fs = Except.ok devices →
        add_device_internal path fs freshId draft =
          (Except.ok (devices ++ [{ draft with id := freshId }]),
           write_devices_to_file (devices ++ [{ draft with id := freshId }]))) ∧
    (∀ path fs freshId, ∀ draft : Device, ∀ id1 id2,
        add_device_internal path fs freshId { draft with id := id1 } =
          add_device_internal path fs freshId { draft with id := id2 }) ∧
    (∀ freshId, ∀ draft : Device, ∀ devices,
        freshId ∉ devices.map Device.id →
        (devices.map Device.id).Nodup →
        ((devices ++ [{ draft with id := freshId }]).map Device.id).Nodup) ∧
    (∀ path fs d devices res fs2,
        read_devices_from_file path fs = Except.ok devices →
        update_device_internal path fs d = (Except.ok res, fs2) →
        (devices.map Device.id).Nodup →
        (res.map Device.id).Nodup) ∧
    (∀ path fs did devices res fs2,
        read_devices_from_file path fs = Except.ok devices →
        delete_device_internal path fs did = (Except.ok res, fs2) →
        (devices.map Device.id).Nodup →
        (res.map Device.id).Nodup) := by
  refine ⟨fun path fs freshId draft devices h =>
      add_device_internal_eq path fs freshId draft devices h,
    fun path fs freshId draft id1 id2 => ?_,
    fun freshId draft devices hnotin hnd => ?_,
    fun path fs d devices res fs2 hread hupd hnd => ?_,
    fun path fs did devices res fs2 hread hdel hnd => ?_⟩
  · unfold add_device_internal
    cases read_devices_from_file path fs <;> rfl
  · simp only [List.map_append, List.map_cons, List.map_nil]
    rw [List.nodup_append]
    refine ⟨hnd, List.nodup_singleton _, ?_⟩
    rw [List.disjoint_singleton]
    exact hnotin
  · rcases update_ok_elim path fs d devices res fs2 hread hupd with ⟨i, hi, hid, hres, _⟩
    rw [hres, map_id_set devices i d hi hid]
    exact hnd
  · rcases delete_ok_elim path fs did devices res fs2 hread hdel with ⟨hres, _, _⟩
    rw [hres]
    exact List.Nodup.sublist
      (List.Sublist.map Device.id (List.filter_sublist devices)) hnd

/-- Witness for C3: a create whose draft reuses the existing id "a"
still yields distinct ids, plus concrete id-preserving update and
delete runs. -/
theorem C3_witness :
    add_device_internal "p"
        (FileState.present (serializeDevices [Device.mk "a" "n1" "m1" none]))
        "b" (Device.mk "a" "n2" "m2" none) =
      (Except.ok [Device.mk "a" "n1" "m1" none, Device.mk "b" "n2" "m2" none],
       write_devices_to_file
         [Device.mk "a" "n1" "m1" none, Device.mk "b" "n2" "m2" none]) ∧
    (([Device.mk "a" "n1" "m1" none] ++
        [Device.mk "b" "n2" "m2" none]).map Device.id).Nodup ∧
    ([Device.mk "a" "n3" "m3" none].map Device.id).Nodup ∧
    (([] : List Device).map Device.id).Nodup :=
  ⟨C3_create_id_unique.1 "p"
      (FileState.present (serializeDevices [Device.mk "a" "n1" "m1" none]))
      "b" (Device.mk "a" "n2" "m2" none) [Device.mk "a" "n1" "m1" none] rfl,
   C3_create_id_unique.2.2.1 "b" (Device.mk "a" "n2" "m2" none)
      [Device.mk "a" "n1" "m1" none] (by decide) (by decide),
   C3_create_id_unique.2.2.2.1 "p"
      (FileState.present (serializeDevices [Device.mk "a" "n1" "m1" none]))
      (Device.mk "a" "n3" "m3" none) [Device.mk "a" "n1" "m1" none]
      [Device.mk "a" "n3" "m3" none]
      (write_devices_to_file [Device.mk "a" "n3" "m3" none]) rfl rfl (by decide),
   C3_create_id_unique.2.2.2.2 "p"
      (FileState.present (serializeDevices [Device.mk "a" "n1" "m1" none]))
      "a" [Device.mk "a" "n1" "m1" none] []
      (write_devices_to_file []) rfl rfl (by decide)⟩

/-- Claim C6: when entry `i` is the first whose id equals `d.id`, update
replaces exactly that entry (every other position unchanged, as `set`
touches only index `i`), persists the new list and returns it; when no
entry has the id, update fails with NotFound carrying the id and the
document keeps its previous state. -/
theorem C6_update_semantics :
    (∀ path fs d devices i, ∀ hi : i < devices.length,
        read_devices_from_file path fs = Except.ok devices →
        (devices.get ⟨i, hi⟩).id = d.id →
        (∀ j, ∀ hj : j < i, (devices.get ⟨j, Nat.lt_trans hj hi⟩).id ≠ d.id) →
        update_device_internal path fs d =
          (Except.ok (devices.set i d),
           write_devices_to_file (devices.set i d))) ∧
    (∀ path fs d devices,
        read_devices_from_file path fs = Except.ok devices →
        (∀ x ∈ devices, x.id ≠ d.id) →
        update_device_internal path fs d =
          (Except.error (DmError.notFound d.id), fs)) := by
  constructor
  · intro path fs d devices i hi hread hid hfirst
    have hidx : devices.findIdx? (fun x => x.id == d.id) = some i := by
      rw [List.findIdx?_eq_some_iff_getElem]
      refine ⟨hi, ?_, ?_⟩
      · simp only [List.get_eq_getElem] at hid
        simp [beq_iff_eq, hid]
      · intro j hj
        have hne := hfirst j hj
        simp only [List.get_eq_getElem] at hne
        simpa [beq_iff_eq] using hne
    rw [update_device_internal_eq path fs d devices hread, hidx]
  · intro path fs d devices hread hnone
    have hidx : devices.findIdx? (fun x => x.id == d.id) = none := by
      rw [List.findIdx?_eq_none_iff]
      intro x hx
      simpa [beq_iff_eq] using hnone x hx
    rw [update_device_internal_eq path fs d devices hread, hidx]

/-- Witness for C6: an update matching the first entry replaces it in
place, and an update with an unknown id fails leaving the document
unchanged. -/
theorem C6_witness :
    update_device_internal "p"
        (FileState.present (serializeDevices
          [Device.mk "a" "n1" "m1" none, Device.mk "b" "n2" "m2" none]))
        (Device.mk "a" "n3" "m3" (some "h")) =
      (Except.ok [Device.mk "a" "n3" "m3" (some "h"), Device.mk "b" "n2" "m2" none],
       write_devices_to_file
         [Device.mk "a" "n3" "m3" (some "h"), Device.mk "b" "n2" "m2" none]) ∧
    update_device_internal "p"
        (FileState.present (serializeDevices
          [Device.mk "a" "n1" "m1" none, Device.mk "b" "n2" "m2" none]))
        (Device.mk "zz" "n4" "m4" none) =
      (Except.error (DmError.notFound "zz"),
       FileState.present (serializeDevices
         [Device.mk "a" "n1" "m1" none, Device.mk "b" "n2" "m2" none])) :=
  ⟨C6_update_semantics.1 "p"
      (FileState.present (serializeDevices
        [Device.mk "a" "n1" "m1" none, Device.mk "b" "n2" "m2" none]))
      (Device.mk "a" "n3" "m3" (some "h"))
      [Device.mk "a" "n1" "m1" none, Device.mk "b" "n2" "m2" none] 0 (by decide)
      rfl rfl (fun j hj => absurd hj (Nat.not_lt_zero j)),
   C6_update_semantics.2 "p"
      (FileState.present (serializeDevices
        [Device.mk "a" "n1" "m1" none, Device.mk "b" "n2" "m2" none]))
      (Device.mk "zz" "n4" "m4" none)
      [Device.mk "a" "n1" "m1" none, Device.mk "b" "n2" "m2" none] rfl (by decide)⟩

/-- Counterexample to claim C7 as stated: on an input list that
violates the id-uniqueness invariant (two entries with id "a"), a
successful delete removes both matching entries, so the result has two
fewer entries, not exactly one fewer. -/
theorem C7_counterexample :
    delete_device_internal "p"
        (FileState.present (serializeDevices
          [Device.mk "a" "n1" "m1" none, Device.mk "a" "n2" "m2" none])) "a" =
      (Except.ok [], write_devices_to_file []) ∧
    ¬(([] : List Device).length + 1 =
        [Device.mk "a" "n1" "m1" none, Device.mk "a" "n2" "m2" none].length) :=
  ⟨rfl, by decide⟩

/-- Claim C7 (amended): for every input list whose ids are pairwise
distinct, if some entry has the given id then delete persists and
returns the filtered list, which has exactly one fewer entry, contains
no entry with that id, and keeps the remaining entries in their
relative order (it is a sublist of the input); if no entry has the id,
delete fails with NotFound and the document keeps its previous state. -/
theorem C7_delete_semantics :
    (∀ path fs did devices,
        read_devices_from_file path fs = Except.ok devices →
        (devices.map Device.id).Nodup →
        (∃ x ∈ devices, x.id = did) →
        delete_device_internal path fs did =
          (Except.ok (devices.filter (fun x => !(x.id == did))),
           write_devices_to_file (devices.filter (fun x => !(x.id == did)))) ∧
        (devices.filter (fun x => !(x.id == did))).length + 1 = devices.length ∧
        (∀ x ∈ devices.filter (fun x => !(x.id == did)), x.id ≠ did) ∧
        (devices.filter (fun x => !(x.id == did))).Sublist devices) ∧
    (∀ path fs did devices,
        read_devices_from_file path fs = Except.ok devices →
        (∀ x ∈ devices, x.id ≠ did) →
        delete_device_internal path fs did =
          (Except.error (DmError.notFound did), fs)) := by
  constructor
  · intro path fs did devices hread hnd hex
    rcases hex with ⟨x, hx, hxid⟩
    have hmem : did ∈ devices.map Device.id := List.mem_map.mpr ⟨x, hx, hxid⟩
    have hcount : devices.countP (fun y => y.id == did) = 1 := by
      have h1 : (devices.map Device.id).count did = 1 :=
        List.count_eq_one_of_mem hnd hmem
      rw [List.count_eq_countP] at h1
      rw [List.countP_map] at h1
      exact h1
    have hsplit : devices.length = devices.countP (fun y => y.id == did) +
        devices.countP (fun y => !(y.id == did)) := by
      simpa using
        List.length_eq_countP_add_countP (fun y : Device => y.id == did) devices
    have hfeq : devices.countP (fun y => !(y.id == did)) =
        (devices.filter (fun y => !(y.id == did))).length :=
      List.countP_eq_length_filter (fun y => !(y.id == did)) devices
    have hflen : (devices.filter (fun y => !(y.id == did))).length + 1 =
        devices.length := by
      omega
    refine ⟨?_, hflen, ?_, List.filter_sublist devices⟩
    · rw [delete_device_internal_eq path fs did devices hread,
        if_neg (by omega)]
    · intro y hy
      have hmemf := List.of_mem_filter hy
      simpa [beq_iff_eq] using hmemf
  · intro path fs did devices hread hnone
    have hfe : devices.filter (fun x => !(x.id == did)) = devices := by
      rw [List.filter_eq_self]
      intro x hx
      simpa [beq_iff_eq] using hnone x hx
    rw [delete_device_internal_eq path fs did devices hread, hfe, if_pos rfl]

/-- Witness for C7: deleting "a" from a two-entry duplicate-free list
leaves the other entry in place, and deleting an unknown id fails,
leaving the document unchanged. -/
theorem C7_witness :
    (delete_device_internal "p"
        (FileState.present (serializeDevices
          [Device.mk "a" "n1" "m1" none, Device.mk "b" "n2" "m2" none])) "a" =
      (Except.ok ([Device.mk "a" "n1" "m1" none,
          Device.mk "b" "n2" "m2" none].filter (fun x => !(x.id == "a"))),
       write_devices_to_file ([Device.mk "a" "n1" "m1" none,
          Device.mk "b" "n2" "m2" none].filter (fun x => !(x.id == "a")))) ∧
     ([Device.mk "a" "n1" "m1" none,
         Device.mk "b" "n2" "m2" none].filter (fun x => !(x.id == "a"))).length + 1 =
       [Device.mk "a" "n1" "m1" none, Device.mk "b" "n2" "m2" none].length ∧
     (∀ x ∈ [Device.mk "a" "n1" "m1" none,
         Device.mk "b" "n2" "m2" none].filter (fun x => !(x.id == "a")), x.id ≠ "a") ∧
     ([Device.mk "a" "n1" "m1" none,
         Device.mk "b" "n2" "m2" none].filter (fun x => !(x.id == "a"))).Sublist
       [Device.mk "a" "n1" "m1" none, Device.mk "b" "n2" "m2" none]) ∧
    delete_device_internal "p"
        (FileState.present (serializeDevices
          [Device.mk "a" "n1" "m1" none, Device.mk "b" "n2" "m2" none])) "zz" =
      (Except.error (DmError.notFound "zz"),
       FileState.present (serializeDevices
         [Device.mk "a" "n1" "m1" none, Device.mk "b" "n2" "m2" none])) :=
  ⟨C7_delete_semantics.1 "p"
      (FileState.present (serializeDevices
        [Device.mk "a" "n1" "m1" none, Device.mk "b" "n2" "m2" none])) "a"
      [Device.mk "a" "n1" "m1" none, Device.mk "b" "n2" "m2" none]
      rfl (by decide) (by decide),
   C7_delete_semantics.2 "p"
      (FileState.present (serializeDevices
        [Device.mk "a" "n1" "m1" none, Device.mk "b" "n2" "m2" none])) "zz"
      [Device.mk "a" "n1" "m1" none, Device.mk "b" "n2" "m2" none]
      rfl (by decide)⟩

/-- Claim C10: a successful delete removes every entry whose id equals
the argument — the persisted and returned list is the full filtering of
the loaded list, so no matching entry survives even when several
entries (in violation of the id-uniqueness invariant) share the id, and
with at least two matches the list shrinks by at least two. -/
theorem C10_delete_all_matching :
    ∀ path fs did devices res fs2,
      read_devices_from_file path fs = Except.ok devices →
      delete_device_internal path fs did = (Except.ok res, fs2) →
      res = devices.filter (fun x => !(x.id == did)) ∧
      (∀ x ∈ res, x.id ≠ did) ∧
      fs2 = write_devices_to_file res ∧
      (2 ≤ devices.countP (fun x => x.id == did) →
        res.length + 2 ≤ devices.length) := by
  intro path fs did devices res fs2 hread hdel
  rcases delete_ok_elim path fs did devices res fs2 hread hdel with ⟨hres, _, hfs2⟩
  refine ⟨hres, ?_, hfs2, ?_⟩
  · intro x hx
    rw [hres] at hx
    have hmemf := List.of_mem_filter hx
    simpa [beq_iff_eq] using hmemf
  · intro h2
    have hsplit : devices.length = devices.countP (fun y => y.id == did) +
        devices.countP (fun y => !(y.id == did)) := by
      simpa using
        List.length_eq_countP_add_countP (fun y : Device => y.id == did) devices
    have hfeq : devices.countP (fun y => !(y.id == did)) =
        (devices.filter (fun y => !(y.id == did))).length :=
      List.countP_eq_length_filter (fun y => !(y.id == did)) devices
    have hlen : res.length = (devices.filter (fun y => !(y.id == did))).length := by
      rw [hres]
    omega

/-- Witness for C10: deleting id "a" from a list with two entries of id
"a" and one of id "b" removes both matching entries at once. -/
theorem C10_witness :
    (∀ x ∈ [Device.mk "a" "n1" "m1" none, Device.mk "b" "n2" "m2" none,
        Device.mk "a" "n3" "m3" none].filter (fun x => !(x.id == "a")), x.id ≠ "a") ∧
    ([Device.mk "a" "n1" "m1" none, Device.mk "b" "n2" "m2" none,
        Device.mk "a" "n3" "m3" none].filter (fun x => !(x.id == "a"))).length + 2 ≤
      [Device.mk "a" "n1" "m1" none, Device.mk "b" "n2" "m2" none,
        Device.mk "a" "n3" "m3" none].length :=
  ⟨(C10_delete_all_matching "p"
      (FileState.present (serializeDevices
        [Device.mk "a" "n1" "m1" none, Device.mk "b" "n2" "m2" none,
         Device.mk "a" "n3" "m3" none])) "a"
      [Device.mk "a" "n1" "m1" none, Device.mk "b" "n2" "m2" none,
       Device.mk "a" "n3" "m3" none]
      ([Device.mk "a" "n1" "m1" none, Device.mk "b" "n2" "m2" none,
        Device.mk "a" "n3" "m3" none].filter (fun x => !(x.id == "a")))
      (write_devices_to_file
        ([Device.mk "a" "n1" "m1" none, Device.mk "b" "n2" "m2" none,
          Device.mk "a" "n3" "m3" none].filter (fun x => !(x.id == "a"))))
      rfl rfl).2.1,
   (C10_delete_all_matching "p"
      (FileState.present (serializeDevices
        [Device.mk "a" "n1" "m1" none, Device.mk "b" "n2" "m2" none,
         Device.mk "a" "n3" "m3" none])) "a"
      [Device.mk "a" "n1" "m1" none, Device.mk "b" "n2" "m2" none,
       Device.mk "a" "n3" "m3" none]
      ([Device.mk "a" "n1" "m1" none, Device.mk "b" "n2" "m2" none,
        Device.mk "a" "n3" "m3" none].filter (fun x => !(x.id == "a")))
      (write_devices_to_file
        ([Device.mk "a" "n1" "m1" none, Device.mk "b" "n2" "m2" none,
          Device.mk "a" "n3" "m3" none].filter (fun x => !(x.id == "a"))))
      rfl rfl).2.2.2 (by decide)⟩

end Wolc
